import Mathlib

/-!
Verification of the sparse-Jacobian structure synchronization and the solver
profiling code in `Solvers/Common` (`DYNSolverCommon.cpp`,
`DYNSolverProfiler.cpp`, `DYNSolverProfiler.h`).

Machine integers are modeled as `Nat`/`Int` (every count a claim exercises is
far below 2^31, and the source never relies on overflow), C buffers as `List`s
whose length is the allocated capacity, and C `double` arithmetic as exact
rationals `ℚ`.  Every floating comparison a claim exercises (`changeRatio`
against `0.01`, counter ratios) is exact at the inputs involved, so no
double-rounding subtlety arises in the statements below.
-/

namespace DYN

/-- Modelled from the spec: the caller's compressed-column sparse matrix
(`DYN::SparseMatrix`, whose definition is outside the provided sources): a
column-pointer array `Ap_` of length `columns+1`, a row-index array `Ai_` of
length `nnz` and a value array `Ax_` of length `nnz`. -/
structure SparseMatrix where
  Ap_ : List Int
  Ai_ : List Int
  Ax_ : List ℚ
deriving DecidableEq

/-- Modelled from the spec: `nbElem()` returns the nonzero count; the spec
fixes the row-index array's length to `nnz`, so the count is that length. -/
def SparseMatrix.nbElem (m : SparseMatrix) : Nat := m.Ai_.length

/-- The backend KINSOL/SUNDIALS sparse matrix handle as the code uses it:
the reported nonzero count `SM_NNZ_S`, and the three buffers
`SM_INDEXPTRS_S`, `SM_INDEXVALS_S`, `SM_DATA_S`; each buffer's allocated
capacity is its list length. -/
structure SUNMatrixSparse where
  nnz : Nat
  indexptrs : List Int
  indexvals : List Int
  data : List ℚ
deriving DecidableEq

/-- Writing `src[i]` into `buf[i]` for every `i < src.length` (the copy loops
of lines 58-64); entries of `buf` past `src.length` keep their old values. -/
def writeFront {α : Type} (buf src : List α) : List α :=
  src ++ buf.drop src.length

/-- `memcmp` over the first `n` entries of two index buffers: `true` iff the
compared regions differ. -/
def memcmpDiffers (a b : List Int) (n : Nat) : Bool :=
  decide (a.take n ≠ b.take n)

/-- `STRUCTURE_CHANGE_TOLERANCE = 0.01`: 1% relative change in NNZ. -/
def STRUCTURE_CHANGE_TOLERANCE : ℚ := 1 / 100

/-- `MIN_NNZ_CHANGE = 10`: minimum absolute change to trigger
refactorization. -/
def MIN_NNZ_CHANGE : Nat := 10

/-- Lines 44-64 of `SolverCommon::copySparseToKINSOL`: when the reported
count grows, free the three buffers and reallocate them (`indexptrs` to
`size+1` entries, `indexvals`/`data` to `newNNZ` entries, contents
unspecified until the copy loops run, modeled as zeros); then set the
reported count to `newNNZ` unconditionally (line 56) and run the three copy
loops (lines 58-64). -/
def copyUpdateJJ (smj : SparseMatrix) (JJ : SUNMatrixSparse) (size : Nat) :
    SUNMatrixSparse :=
  let currentNNZ : Nat := JJ.nnz
  let newNNZ : Nat := smj.nbElem
  let JJg : SUNMatrixSparse :=
    if currentNNZ < newNNZ then
      { nnz := newNNZ
        indexptrs := List.replicate (size + 1) 0
        indexvals := List.replicate newNNZ 0
        data := List.replicate newNNZ 0 }
    else JJ
  { nnz := newNNZ
    indexptrs := writeFront JJg.indexptrs (smj.Ap_.take (size + 1))
    indexvals := writeFront JJg.indexvals smj.Ai_
    data := writeFront JJg.data (smj.Ax_.take newNNZ) }

/-- Lines 66-91 of `SolverCommon::copySparseToKINSOL`: the tolerance-based
structure change detection. `currentNNZ` is the count read at line 41
(before the update), `JJc` the backend handle after the copy (so `JJc.nnz`
is the length expression `SM_NNZ_S(JJ)` of the `memcmp` calls at lines
75/83), and `growth` the tentative flag set by the growth path. -/
def structChangeVerdict (smj : SparseMatrix) (currentNNZ : Nat)
    (JJc : SUNMatrixSparse) (growth : Bool)
    (lastRowVals : Option (List Int)) : Bool :=
  match lastRowVals with
  | some lrv =>
    let newNNZ : Nat := smj.nbElem
    let nnzDiff : Nat := Int.natAbs ((newNNZ : Int) - (currentNNZ : Int))
    let changeRatio : ℚ :=
      if 0 < currentNNZ then (nnzDiff : ℚ) / (currentNNZ : ℚ) else 1
    if STRUCTURE_CHANGE_TOLERANCE ≤ changeRatio ∨ MIN_NNZ_CHANGE ≤ nnzDiff then
      if memcmpDiffers lrv JJc.indexvals JJc.nnz then true else growth
    else
      if newNNZ = currentNNZ then
        if memcmpDiffers lrv JJc.indexvals JJc.nnz then true else growth
      else growth
  | none => true  -- lines 89-90: first time or size change

/-- `SolverCommon::copySparseToKINSOL` (DYNSolverCommon.cpp lines 33-94):
copies `smj` into the backend handle `JJ` — freeing and reallocating the
three buffers when the reported nonzero count grows — and classifies whether
the sparsity structure changed relative to the `lastRowVals` snapshot.
Returns the updated handle together with the `matrixStructChange` verdict. -/
def copySparseToKINSOL (smj : SparseMatrix) (JJ : SUNMatrixSparse) (size : Nat)
    (lastRowVals : Option (List Int)) : SUNMatrixSparse × Bool :=
  (copyUpdateJJ smj JJ size,
   structChangeVerdict smj JJ.nnz (copyUpdateJJ smj JJ size)
     (decide (JJ.nnz < smj.nbElem)) lastRowVals)

/-- The number of snapshot entries the row-index `memcmp` of
`copySparseToKINSOL` reads (0 when no comparison executes), following the
code's branch structure; the length argument at lines 75/83 is
`SM_NNZ_S(JJ)`, which line 56 has set to the new nonzero count. -/
def snapshotEntriesRead (smj : SparseMatrix) (JJ : SUNMatrixSparse)
    (lastRowVals : Option (List Int)) : Nat :=
  match lastRowVals with
  | none => 0
  | some _ =>
    let currentNNZ : Nat := JJ.nnz
    let newNNZ : Nat := smj.nbElem
    let nnzDiff : Nat := Int.natAbs ((newNNZ : Int) - (currentNNZ : Int))
    let changeRatio : ℚ :=
      if 0 < currentNNZ then (nnzDiff : ℚ) / (currentNNZ : ℚ) else 1
    if STRUCTURE_CHANGE_TOLERANCE ≤ changeRatio ∨ MIN_NNZ_CHANGE ≤ nnzDiff then
      newNNZ
    else if newNNZ = currentNNZ then newNNZ else 0

/-- The state owned by the refactorization coordinator: the backend matrix
handle and the last-known row-index snapshot (`NULL` = `none`). -/
structure KinsolState where
  jj : SUNMatrixSparse
  lastRowVals : Option (List Int)
deriving DecidableEq

/-- `SolverCommon::propagateMatrixStructureChangeToKINSOL`
(DYNSolverCommon.cpp lines 96-110): runs the synchronizer; on a `true`
verdict calls `SUNLinSol_KLUReInit` (the returned `Bool` records that call),
frees the previous snapshot if present and replaces it by a fresh buffer of
`SM_NNZ_S(JJ)` entries copied from the backend's row-index array; on `false`
it leaves the snapshot untouched. -/
def propagateMatrixStructureChangeToKINSOL (smj : SparseMatrix)
    (st : KinsolState) (size : Nat) : KinsolState × Bool :=
  let res := copySparseToKINSOL smj st.jj size st.lastRowVals
  if res.2 then
    ({ jj := res.1, lastRowVals := some (res.1.indexvals.take res.1.nnz) }, true)
  else
    ({ jj := res.1, lastRowVals := st.lastRowVals }, false)

/-- One synchronizer call viewed as a transition on the backend handle. -/
def syncStep (size : Nat) (lrv : Option (List Int)) (JJ : SUNMatrixSparse)
    (smj : SparseMatrix) : SUNMatrixSparse :=
  (copySparseToKINSOL smj JJ size lrv).1

/-- The trace of backend states across a sequence of synchronizer calls,
starting from `JJ` (the handle's evolution does not depend on the snapshot
argument, which is only read for the verdict). -/
def syncTrace (size : Nat) (lrv : Option (List Int)) (JJ : SUNMatrixSparse)
    (ms : List SparseMatrix) : List SUNMatrixSparse :=
  ms.scanl (syncStep size lrv) JJ

/-- `SolverProfiler` state (DYNSolverProfiler.h lines 126-137): five monotonic
counters and five summed durations; durations are modeled as exact rationals. -/
structure SolverProfiler where
  symbolicFactorizations_ : Nat
  numericalOnlyFactorizations_ : Nat
  structureChangeDetections_ : Nat
  falsePositiveStructureChanges_ : Nat
  jacobianEvaluations_ : Nat
  totalSymbolicTime_ : ℚ
  totalNumericalTime_ : ℚ
  totalJacobianTime_ : ℚ
  totalNnzDiff_ : ℚ
  totalChangeRatio_ : ℚ
deriving DecidableEq

/-- The constructor `SolverProfiler::SolverProfiler` (lines 32-43): every
counter and sum starts at zero. -/
def SolverProfiler.init : SolverProfiler :=
  { symbolicFactorizations_ := 0
    numericalOnlyFactorizations_ := 0
    structureChangeDetections_ := 0
    falsePositiveStructureChanges_ := 0
    jacobianEvaluations_ := 0
    totalSymbolicTime_ := 0
    totalNumericalTime_ := 0
    totalJacobianTime_ := 0
    totalNnzDiff_ := 0
    totalChangeRatio_ := 0 }

/-- `SolverProfiler::reset` (lines 48-59): zero every field. -/
def SolverProfiler.reset (_p : SolverProfiler) : SolverProfiler :=
  { symbolicFactorizations_ := 0
    numericalOnlyFactorizations_ := 0
    structureChangeDetections_ := 0
    falsePositiveStructureChanges_ := 0
    jacobianEvaluations_ := 0
    totalSymbolicTime_ := 0
    totalNumericalTime_ := 0
    totalJacobianTime_ := 0
    totalNnzDiff_ := 0
    totalChangeRatio_ := 0 }

/-- `SolverProfiler::logSymbolicFactorization` (lines 61-64). -/
def SolverProfiler.logSymbolicFactorization (p : SolverProfiler)
    (elapsedTime : ℚ) : SolverProfiler :=
  { p with symbolicFactorizations_ := p.symbolicFactorizations_ + 1
           totalSymbolicTime_ := p.totalSymbolicTime_ + elapsedTime }

/-- `SolverProfiler::logNumericalFactorization` (lines 66-69). -/
def SolverProfiler.logNumericalFactorization (p : SolverProfiler)
    (elapsedTime : ℚ) : SolverProfiler :=
  { p with numericalOnlyFactorizations_ := p.numericalOnlyFactorizations_ + 1
           totalNumericalTime_ := p.totalNumericalTime_ + elapsedTime }

/-- `SolverProfiler::logStructureChange` (lines 71-79). -/
def SolverProfiler.logStructureChange (p : SolverProfiler)
    (wasNecessary : Bool) (nnzDiff : Int) (changeRatio : ℚ) : SolverProfiler :=
  { p with structureChangeDetections_ := p.structureChangeDetections_ + 1
           totalNnzDiff_ := p.totalNnzDiff_ + (nnzDiff : ℚ)
           totalChangeRatio_ := p.totalChangeRatio_ + changeRatio
           falsePositiveStructureChanges_ :=
             if wasNecessary then p.falsePositiveStructureChanges_
             else p.falsePositiveStructureChanges_ + 1 }

/-- `SolverProfiler::logJacobianEvaluation` (lines 81-84). -/
def SolverProfiler.logJacobianEvaluation (p : SolverProfiler)
    (elapsedTime : ℚ) : SolverProfiler :=
  { p with jacobianEvaluations_ := p.jacobianEvaluations_ + 1
           totalJacobianTime_ := p.totalJacobianTime_ + elapsedTime }

/-- `SolverProfiler::getSymbolicToNumericalRatio` (lines 86-91). -/
def SolverProfiler.getSymbolicToNumericalRatio (p : SolverProfiler) : ℚ :=
  if p.numericalOnlyFactorizations_ = 0 then 0
  else (p.symbolicFactorizations_ : ℚ) / (p.numericalOnlyFactorizations_ : ℚ)

/-- The denominators of the divisions `SolverProfiler::printStatistics`
(lines 93-195) executes, in source order, one entry per division actually
run under the code's guards: the symbolic-ratio division at line 109 (guard
`totalFactorizations > 0`), the average-time divisions at lines 115/121
(guards on their own counters), the division inside
`getSymbolicToNumericalRatio` called at line 131 (guarded internally), the
three per-detection averages at lines 145-155 (guard on the detection
count), the average Jacobian time at line 168, and the saved-time division
at line 186-187, whose only guard is `falsePositiveStructureChanges_ > 0`
while its denominator is `symbolicFactorizations_`. -/
def SolverProfiler.printStatisticsDivisors (p : SolverProfiler) : List ℚ :=
  (if 0 < p.symbolicFactorizations_ + p.numericalOnlyFactorizations_ then
    [((p.symbolicFactorizations_ + p.numericalOnlyFactorizations_ : Nat) : ℚ)]
  else [])
  ++ (if 0 < p.symbolicFactorizations_ then [(p.symbolicFactorizations_ : ℚ)] else [])
  ++ (if 0 < p.numericalOnlyFactorizations_ then [(p.numericalOnlyFactorizations_ : ℚ)] else [])
  ++ (if p.numericalOnlyFactorizations_ = 0 then []
      else [(p.numericalOnlyFactorizations_ : ℚ)])
  ++ (if 0 < p.structureChangeDetections_ then
        [(p.structureChangeDetections_ : ℚ), (p.structureChangeDetections_ : ℚ),
         (p.structureChangeDetections_ : ℚ)]
      else [])
  ++ (if 0 < p.jacobianEvaluations_ then [(p.jacobianEvaluations_ : ℚ)] else [])
  ++ (if 0 < p.falsePositiveStructureChanges_ then [(p.symbolicFactorizations_ : ℚ)] else [])

/-! Concrete instances used by counterexamples, failing inputs and witnesses. -/

/-- A 1-column local matrix with 1005 nonzeros, all row indices 0. -/
def smjGrow1005 : SparseMatrix :=
  { Ap_ := [0, 1005], Ai_ := List.replicate 1005 0, Ax_ := List.replicate 1005 0 }

/-- A backend handle reporting 1000 nonzeros with matching capacity. -/
def jjCur1000 : SUNMatrixSparse :=
  { nnz := 1000, indexptrs := List.replicate 2 0
    indexvals := List.replicate 1000 0, data := List.replicate 1000 0 }

/-- A 1-column local matrix with 1000 nonzeros, all row indices 0. -/
def smjShrink1000 : SparseMatrix :=
  { Ap_ := [0, 1000], Ai_ := List.replicate 1000 0, Ax_ := List.replicate 1000 0 }

/-- A backend handle reporting 1005 nonzeros with matching capacity. -/
def jjCur1005 : SUNMatrixSparse :=
  { nnz := 1005, indexptrs := List.replicate 2 0
    indexvals := List.replicate 1005 0, data := List.replicate 1005 0 }

/-- A fresh, empty backend handle paired with an absent snapshot. -/
def stEmpty : KinsolState :=
  { jj := { nnz := 0, indexptrs := [], indexvals := [], data := [] }
    lastRowVals := none }

/-- A 1-column local matrix with 10 nonzeros. -/
def smjTen : SparseMatrix :=
  { Ap_ := [0, 10], Ai_ := List.replicate 10 0, Ax_ := List.replicate 10 0 }

/-- A 1-column local matrix with 20 nonzeros. -/
def smjTwenty : SparseMatrix :=
  { Ap_ := [0, 20], Ai_ := List.replicate 20 0, Ax_ := List.replicate 20 0 }

/-- The coordinator state reached from `stEmpty` by one call on `smjTen`:
its snapshot holds exactly 10 entries. -/
def stAfterTen : KinsolState :=
  (propagateMatrixStructureChangeToKINSOL smjTen stEmpty 1).1

/-- A backend handle of capacity 100 reporting 100 nonzeros. -/
def jjCap100 : SUNMatrixSparse :=
  { nnz := 100, indexptrs := [0]
    indexvals := List.replicate 100 0, data := List.replicate 100 0 }

/-- A 0-column-dimension local matrix with 10 nonzeros. -/
def smjColTen : SparseMatrix :=
  { Ap_ := [10], Ai_ := List.replicate 10 0, Ax_ := List.replicate 10 0 }

/-- A 0-column-dimension local matrix with 20 nonzeros. -/
def smjColTwenty : SparseMatrix :=
  { Ap_ := [20], Ai_ := List.replicate 20 0, Ax_ := List.replicate 20 0 }

/-- A small local matrix with 3 nonzeros and row indices 1, 2, 5. -/
def smjSmall : SparseMatrix := { Ap_ := [0, 3], Ai_ := [1, 2, 5], Ax_ := [0, 0, 0] }

/-- The same small matrix with different values in `Ax_`. -/
def smjSmallAltVals : SparseMatrix :=
  { Ap_ := [0, 3], Ai_ := [1, 2, 5], Ax_ := [7, 8, 9] }

/-- A backend handle reporting 3 nonzeros whose row indices differ from
`smjSmall`. -/
def jjThree : SUNMatrixSparse :=
  { nnz := 3, indexptrs := [0, 0], indexvals := [9, 9, 9], data := [0, 0, 0] }

/-- A backend handle of capacity 7 reporting 7 nonzeros. -/
def jjSeven : SUNMatrixSparse :=
  { nnz := 7, indexptrs := [0, 0]
    indexvals := List.replicate 7 9, data := List.replicate 7 0 }

/-- A fresh backend handle of capacity 1 reporting 1 nonzero. -/
def jjOne : SUNMatrixSparse :=
  { nnz := 1, indexptrs := [0, 0], indexvals := [4], data := [0] }

/-- A 1-column local matrix with a single nonzero at row 4. -/
def smjOne : SparseMatrix := { Ap_ := [0, 1], Ai_ := [4], Ax_ := [1] }

/-- A 1-column local matrix with two nonzeros at rows 4 and 6. -/
def smjTwo : SparseMatrix := { Ap_ := [0, 2], Ai_ := [4, 6], Ax_ := [1, 1] }

/-! Helper lemmas about the copy phase. -/

theorem copy_nnz (smj : SparseMatrix) (JJ : SUNMatrixSparse) (size : Nat)
    (lrv : Option (List Int)) :
    (copySparseToKINSOL smj JJ size lrv).1.nnz = smj.nbElem := rfl

theorem copyUpdateJJ_indexvals (smj : SparseMatrix) (JJ : SUNMatrixSparse)
    (size : Nat) :
    (copyUpdateJJ smj JJ size).indexvals =
      writeFront
        (if JJ.nnz < smj.nbElem then List.replicate smj.nbElem 0
         else JJ.indexvals) smj.Ai_ := by
  by_cases h : JJ.nnz < smj.nbElem <;> simp [copyUpdateJJ, h]

theorem copy_indexvals_take (smj : SparseMatrix) (JJ : SUNMatrixSparse)
    (size : Nat) :
    ((copyUpdateJJ smj JJ size).indexvals).take smj.nbElem = smj.Ai_ := by
  rw [copyUpdateJJ_indexvals]
  show (writeFront _ smj.Ai_).take smj.Ai_.length = smj.Ai_
  simp [writeFront, List.take_left]

theorem copy_indexvals_length (smj : SparseMatrix) (JJ : SUNMatrixSparse)
    (size : Nat) :
    smj.nbElem ≤ (copyUpdateJJ smj JJ size).indexvals.length := by
  rw [copyUpdateJJ_indexvals]
  show smj.Ai_.length ≤ _
  simp [writeFront]

theorem copy_fst (smj : SparseMatrix) (JJ : SUNMatrixSparse) (size : Nat)
    (lrv : Option (List Int)) :
    (copySparseToKINSOL smj JJ size lrv).1 = copyUpdateJJ smj JJ size := rfl

theorem copyUpdateJJ_nnz (smj : SparseMatrix) (JJ : SUNMatrixSparse)
    (size : Nat) : (copyUpdateJJ smj JJ size).nnz = smj.nbElem := rfl

theorem structChangeVerdict_congr (smjA smjB : SparseMatrix) (c : Nat)
    (JA JB : SUNMatrixSparse) (g : Bool) (lrv : Option (List Int))
    (hn : smjA.nbElem = smjB.nbElem) (hv : JA.indexvals = JB.indexvals)
    (hz : JA.nnz = JB.nnz) :
    structChangeVerdict smjA c JA g lrv = structChangeVerdict smjB c JB g lrv := by
  cases lrv with
  | none => rfl
  | some l => simp only [structChangeVerdict, hn, hv, hz]

/-- C6: with an absent snapshot, `copySparseToKINSOL` returns
`structureChanged = true` for every input matrix, including one whose
nonzero count is zero. -/
theorem copySparse_first_call_forces_change (smj : SparseMatrix)
    (JJ : SUNMatrixSparse) (size : Nat) :
    (copySparseToKINSOL smj JJ size none).2 = true := rfl

set_option maxRecDepth 100000 in
/-- C1 (counterexample): at `currentNnz = 1000`, `newNnz = 1005`, snapshot
present and the row-index pattern identical over the overlapping 1000
entries, the function returns `true`, not `false`: the growth path
`currentNNZ < newNNZ` (line 44) sets the tentative flag, and the
within-tolerance branch (lines 78-88) never clears it. -/
theorem tolerance_suppression_fails_on_growth :
    jjCur1000.nnz = 1000 ∧ smjGrow1005.nbElem = 1005
    ∧ (List.replicate 1000 (0 : Int)).take 1000 = smjGrow1005.Ai_.take 1000
    ∧ (copySparseToKINSOL smjGrow1005 jjCur1000 1
        (some (List.replicate 1000 0))).2 = true := by
  refine ⟨rfl, by simp [smjGrow1005, SparseMatrix.nbElem], ?_, ?_⟩
  · simp [smjGrow1005, List.take_replicate]
  · norm_num [copySparseToKINSOL, structChangeVerdict, smjGrow1005, jjCur1000,
      SparseMatrix.nbElem, STRUCTURE_CHANGE_TOLERANCE, MIN_NNZ_CHANGE]

set_option maxRecDepth 100000 in
/-- C1 (amended): with `currentNnz = 1000`, `newNnz = 1005` and an identical
pattern over the overlapping region the verdict is `true` (the growth path's
tentative flag survives the tolerance branch); the tolerance suppression to
`false` applies to the mirrored within-tolerance non-growth call,
`currentNnz = 1005`, `newNnz = 1000` with identical pattern over the
overlapping region. -/
theorem tolerance_suppression_amended :
    (copySparseToKINSOL smjGrow1005 jjCur1000 1
        (some (List.replicate 1000 0))).2 = true
    ∧ (copySparseToKINSOL smjShrink1000 jjCur1005 1
        (some (List.replicate 1005 0))).2 = false := by
  constructor
  · norm_num [copySparseToKINSOL, structChangeVerdict, smjGrow1005, jjCur1000,
      SparseMatrix.nbElem, STRUCTURE_CHANGE_TOLERANCE, MIN_NNZ_CHANGE]
  · norm_num [copySparseToKINSOL, structChangeVerdict, smjShrink1000, jjCur1005,
      SparseMatrix.nbElem, STRUCTURE_CHANGE_TOLERANCE, MIN_NNZ_CHANGE]

/-- C4 (code bug): the state reached from a fresh profiler by one
`logStructureChange(false, 1, 0.01)` has `falsePositiveStructureChanges_ = 1`
and `symbolicFactorizations_ = 0`, and `printStatistics` run on it executes
the saved-time division of lines 186-187 with denominator
`symbolicFactorizations_ = 0` (last entry of the divisor list), since its
only guard is `falsePositiveStructureChanges_ > 0`. -/
theorem printStatistics_unguarded_division :
    (SolverProfiler.init.logStructureChange false 1
        (1/100)).falsePositiveStructureChanges_ = 1
    ∧ (SolverProfiler.init.logStructureChange false 1
        (1/100)).symbolicFactorizations_ = 0
    ∧ (SolverProfiler.init.logStructureChange false 1
        (1/100)).printStatisticsDivisors = [1, 1, 1, 0] := by
  refine ⟨rfl, rfl, ?_⟩
  norm_num [SolverProfiler.printStatisticsDivisors, SolverProfiler.logStructureChange,
    SolverProfiler.init]

/-- C9: `getSymbolicToNumericalRatio` is the symbolic count divided by the
numerical-only count, 0 when the latter is 0; after two symbolic
factorizations (0.1 s each) and one numerical factorization (0.3 s) it is 2;
after `reset()` every counter, every summed duration and the ratio are 0. -/
theorem profiler_ratio_and_reset :
    (∀ p : SolverProfiler, p.getSymbolicToNumericalRatio =
      if p.numericalOnlyFactorizations_ = 0 then 0
      else (p.symbolicFactorizations_ : ℚ) / (p.numericalOnlyFactorizations_ : ℚ))
    ∧ (((SolverProfiler.init.logSymbolicFactorization
          (1/10)).logSymbolicFactorization (1/10)).logNumericalFactorization
          (3/10)).getSymbolicToNumericalRatio = 2
    ∧ (∀ p : SolverProfiler,
        p.reset.symbolicFactorizations_ = 0
        ∧ p.reset.numericalOnlyFactorizations_ = 0
        ∧ p.reset.structureChangeDetections_ = 0
        ∧ p.reset.falsePositiveStructureChanges_ = 0
        ∧ p.reset.jacobianEvaluations_ = 0
        ∧ p.reset.totalSymbolicTime_ = 0
        ∧ p.reset.totalNumericalTime_ = 0
        ∧ p.reset.totalJacobianTime_ = 0
        ∧ p.reset.totalNnzDiff_ = 0
        ∧ p.reset.totalChangeRatio_ = 0
        ∧ p.reset.getSymbolicToNumericalRatio = 0) := by
  refine ⟨fun p => rfl, ?_, fun p => ?_⟩
  · norm_num [SolverProfiler.getSymbolicToNumericalRatio,
      SolverProfiler.logSymbolicFactorization, SolverProfiler.logNumericalFactorization,
      SolverProfiler.init]
  · exact ⟨rfl, rfl, rfl, rfl, rfl, rfl, rfl, rfl, rfl, rfl, rfl⟩

/-- C3 (code bug): a reachable two-call sequence in which the row-index
comparison reads past the snapshot: the first call (absent snapshot, 10
nonzeros) installs a 10-entry snapshot, and the second call with 20 nonzeros
executes the comparison over `newNnz = 20` entries, 10 entries beyond the
end of the 10-entry snapshot buffer. -/
theorem snapshot_compare_reads_out_of_bounds :
    stAfterTen.lastRowVals = some (List.replicate 10 0)
    ∧ smjTwenty.nbElem = 20
    ∧ snapshotEntriesRead smjTwenty stAfterTen.jj stAfterTen.lastRowVals = 20 := by
  have h1 : stAfterTen.lastRowVals = some (List.replicate 10 0) := by
    norm_num [stAfterTen, propagateMatrixStructureChangeToKINSOL, copySparseToKINSOL,
      structChangeVerdict, copyUpdateJJ, writeFront, smjTen, stEmpty, SparseMatrix.nbElem,
      List.take_replicate]
  have h2 : stAfterTen.jj.nnz = 10 := by
    norm_num [stAfterTen, propagateMatrixStructureChangeToKINSOL, copySparseToKINSOL,
      structChangeVerdict, copyUpdateJJ, smjTen, stEmpty, SparseMatrix.nbElem]
  refine ⟨h1, by simp [smjTwenty, SparseMatrix.nbElem], ?_⟩
  rw [h1]
  norm_num [snapshotEntriesRead, h2, smjTwenty, SparseMatrix.nbElem,
    STRUCTURE_CHANGE_TOLERANCE, MIN_NNZ_CHANGE]

set_option maxRecDepth 100000 in
/-- C7 (counterexample): two calls with nondecreasing nonzero counts
(10 then 20) on a backend handle of capacity 100: the second call takes the
growth path (reported count 10 < 20) and reallocates the buffers down to 20
entries, so the allocated capacity shrinks from 100 to 20. -/
theorem capacity_shrinks_on_nondecreasing_sequence :
    smjColTen.nbElem ≤ smjColTwenty.nbElem
    ∧ (syncTrace 0 none jjCap100 [smjColTen, smjColTwenty]).map
        (fun j => j.indexvals.length) = [100, 100, 20]
    ∧ ¬ List.Chain' (· ≤ ·)
        ((syncTrace 0 none jjCap100 [smjColTen, smjColTwenty]).map
          (fun j => j.indexvals.length)) := by
  have h2 : (syncTrace 0 none jjCap100 [smjColTen, smjColTwenty]).map
      (fun j => j.indexvals.length) = [100, 100, 20] := by decide
  refine ⟨by decide, h2, ?_⟩
  rw [h2]
  simp [List.chain'_cons]

/-- C2: with a snapshot present, `newNnz` equal to `currentNnz` and the
copied row-index array differing from the snapshot in at least one of the
`newNnz` entries, `copySparseToKINSOL` returns `structureChanged = true`,
regardless of the tolerance thresholds. -/
theorem pattern_change_at_equal_size_detected (smj : SparseMatrix)
    (JJ : SUNMatrixSparse) (size : Nat) (lrv : List Int)
    (hsize : JJ.nnz = smj.nbElem) (hlen : lrv.length = smj.nbElem)
    (hdiff : lrv ≠ smj.Ai_) :
    (copySparseToKINSOL smj JJ size (some lrv)).2 = true := by
  have ht : lrv.take smj.nbElem = lrv := by
    rw [← hlen]; exact List.take_length lrv
  have hmem : memcmpDiffers lrv (copyUpdateJJ smj JJ size).indexvals
      smj.nbElem = true := by
    unfold memcmpDiffers
    rw [ht, copy_indexvals_take]
    exact decide_eq_true hdiff
  show structChangeVerdict smj JJ.nnz (copyUpdateJJ smj JJ size)
      (decide (JJ.nnz < smj.nbElem)) (some lrv) = true
  rw [hsize]
  simp [structChangeVerdict, copyUpdateJJ_nnz, hmem]

/-- C2 witness: a concrete matching-size call with a pattern difference. -/
theorem pattern_change_at_equal_size_detected_witness :
    (copySparseToKINSOL smjSmall jjThree 1 (some [1, 2, 4])).2 = true :=
  pattern_change_at_equal_size_detected smjSmall jjThree 1 [1, 2, 4]
    rfl rfl (by decide)

/-- Helper: at matching size, a snapshot matching the matrix's row-index
array over `nbElem` entries yields a `false` verdict. -/
theorem copy_verdict_false_of_match (smj : SparseMatrix) (JJ : SUNMatrixSparse)
    (size : Nat) (lrv : List Int)
    (hsize : JJ.nnz = smj.nbElem) (hmatch : lrv.take smj.nbElem = smj.Ai_) :
    (copySparseToKINSOL smj JJ size (some lrv)).2 = false := by
  have hmem : memcmpDiffers lrv (copyUpdateJJ smj JJ size).indexvals
      smj.nbElem = false := by
    unfold memcmpDiffers
    rw [copy_indexvals_take, hmatch]
    simp
  show structChangeVerdict smj JJ.nnz (copyUpdateJJ smj JJ size)
      (decide (JJ.nnz < smj.nbElem)) (some lrv) = false
  rw [hsize]
  simp [structChangeVerdict, copyUpdateJJ_nnz, hmem]

/-- C8: calling `copySparseToKINSOL` twice in succession with an identical
local matrix and a snapshot already matching that matrix's row-index array
yields `structureChanged = false` on the second call. -/
theorem idempotent_second_call_no_change (smj : SparseMatrix)
    (JJ : SUNMatrixSparse) (size : Nat) (lrv : List Int)
    (hmatch : lrv.take smj.nbElem = smj.Ai_) :
    (copySparseToKINSOL smj
        (copySparseToKINSOL smj JJ size (some lrv)).1 size (some lrv)).2
      = false :=
  copy_verdict_false_of_match smj _ size lrv
    (copy_nnz smj JJ size (some lrv)) hmatch

/-- C8 witness: a concrete second call on an already-synchronized state. -/
theorem idempotent_second_call_no_change_witness :
    (copySparseToKINSOL smjSmall
        (copySparseToKINSOL smjSmall jjSeven 1 (some [1, 2, 5])).1 1
        (some [1, 2, 5])).2 = false :=
  idempotent_second_call_no_change smjSmall jjSeven 1 [1, 2, 5] rfl

/-- C10: the structure-changed verdict does not depend on the value array:
two calls identical in nonzero count, column-pointer array, row-index array,
backend handle and snapshot, differing arbitrarily in `Ax_`, return the same
verdict. -/
theorem verdict_independent_of_values (smjA smjB : SparseMatrix)
    (JJ : SUNMatrixSparse) (size : Nat) (lrv : Option (List Int))
    (hAp : smjA.Ap_ = smjB.Ap_) (hAi : smjA.Ai_ = smjB.Ai_) :
    (copySparseToKINSOL smjA JJ size lrv).2
      = (copySparseToKINSOL smjB JJ size lrv).2 := by
  have hn : smjA.nbElem = smjB.nbElem := by
    unfold SparseMatrix.nbElem; rw [hAi]
  have hv : (copyUpdateJJ smjA JJ size).indexvals
      = (copyUpdateJJ smjB JJ size).indexvals := by
    rw [copyUpdateJJ_indexvals, copyUpdateJJ_indexvals, hAi, hn]
  have hz : (copyUpdateJJ smjA JJ size).nnz = (copyUpdateJJ smjB JJ size).nnz := by
    rw [copyUpdateJJ_nnz, copyUpdateJJ_nnz, hn]
  show structChangeVerdict smjA JJ.nnz (copyUpdateJJ smjA JJ size)
      (decide (JJ.nnz < smjA.nbElem)) lrv
    = structChangeVerdict smjB JJ.nnz (copyUpdateJJ smjB JJ size)
      (decide (JJ.nnz < smjB.nbElem)) lrv
  rw [hn]
  exact structChangeVerdict_congr smjA smjB JJ.nnz _ _ _ lrv hn hv hz

/-- C10 witness: same structure, different values, same verdict. -/
theorem verdict_independent_of_values_witness :
    (copySparseToKINSOL smjSmall jjThree 1 (some [1, 2, 5])).2
      = (copySparseToKINSOL smjSmallAltVals jjThree 1 (some [1, 2, 5])).2 :=
  verdict_independent_of_values smjSmall smjSmallAltVals jjThree 1
    (some [1, 2, 5]) rfl rfl

/-- C5: `propagateMatrixStructureChangeToKINSOL` calls the backend symbolic
reinitialization (the returned flag) and replaces the snapshot by a fresh
buffer of `newNnz` entries copied from the backend row-index array exactly
when `copySparseToKINSOL` returns `true`; on `false` no reinitialization
happens and the snapshot pointer and contents are unchanged. -/
theorem propagate_reinit_iff_struct_change (smj : SparseMatrix)
    (st : KinsolState) (size : Nat) :
    ((propagateMatrixStructureChangeToKINSOL smj st size).2
        = (copySparseToKINSOL smj st.jj size st.lastRowVals).2)
    ∧ ((propagateMatrixStructureChangeToKINSOL smj st size).1.jj
        = (copySparseToKINSOL smj st.jj size st.lastRowVals).1)
    ∧ ((copySparseToKINSOL smj st.jj size st.lastRowVals).2 = true →
        (propagateMatrixStructureChangeToKINSOL smj st size).1.lastRowVals
          = some (((copySparseToKINSOL smj st.jj size
              st.lastRowVals).1.indexvals).take smj.nbElem)
        ∧ ∀ buf, (propagateMatrixStructureChangeToKINSOL smj
              st size).1.lastRowVals = some buf → buf.length = smj.nbElem)
    ∧ ((copySparseToKINSOL smj st.jj size st.lastRowVals).2 = false →
        (propagateMatrixStructureChangeToKINSOL smj st size).1.lastRowVals
          = st.lastRowVals) := by
  cases h : (copySparseToKINSOL smj st.jj size st.lastRowVals).2 with
  | false =>
    refine ⟨?_, ?_, ?_, ?_⟩ <;>
      simp [propagateMatrixStructureChangeToKINSOL, h]
  | true =>
    have hcap : smj.nbElem ≤ (copySparseToKINSOL smj st.jj size
        st.lastRowVals).1.indexvals.length := by
      rw [copy_fst]; exact copy_indexvals_length smj st.jj size
    have hnz : (copySparseToKINSOL smj st.jj size st.lastRowVals).1.nnz
        = smj.nbElem := copy_nnz smj st.jj size st.lastRowVals
    refine ⟨by simp [propagateMatrixStructureChangeToKINSOL, h],
      by simp [propagateMatrixStructureChangeToKINSOL, h], ?_,
      by simp [propagateMatrixStructureChangeToKINSOL, h]⟩
    intro _
    constructor
    · simp [propagateMatrixStructureChangeToKINSOL, h, hnz]
    · intro buf hbuf
      simp only [propagateMatrixStructureChangeToKINSOL, h, if_true,
        hnz] at hbuf
      cases hbuf
      case _ =>
        rw [List.length_take]
        exact Nat.min_eq_left hcap

/-- C5 witness: a first call (absent snapshot) forces the verdict, the
reinitialization, and the snapshot installation. -/
theorem propagate_reinit_iff_struct_change_witness :
    (propagateMatrixStructureChangeToKINSOL smjTen stEmpty 1).1.lastRowVals
      = some (((copySparseToKINSOL smjTen stEmpty.jj 1
          stEmpty.lastRowVals).1.indexvals).take smjTen.nbElem) :=
  ((propagate_reinit_iff_struct_change smjTen stEmpty 1).2.2.1 rfl).1

/-- Helper: one synchronizer call on a handle whose capacity equals its
reported count, with a nondecreasing input, yields capacity and reported
count both equal to the input's nonzero count. -/
theorem syncStep_invariant (size : Nat) (lrv : Option (List Int))
    (JJ : SUNMatrixSparse) (smj : SparseMatrix)
    (hfresh : JJ.indexvals.length = JJ.nnz) (hle : JJ.nnz ≤ smj.nbElem) :
    (syncStep size lrv JJ smj).indexvals.length = smj.nbElem
    ∧ (syncStep size lrv JJ smj).nnz = smj.nbElem := by
  refine ⟨?_, copy_nnz smj JJ size lrv⟩
  show (copyUpdateJJ smj JJ size).indexvals.length = smj.nbElem
  rw [copyUpdateJJ_indexvals]
  have hA : smj.Ai_.length = smj.nbElem := rfl
  by_cases hg : JJ.nnz < smj.nbElem
  · simp only [hg, if_true, writeFront, List.length_append, List.length_drop,
      List.length_replicate]
    omega
  · have heq : JJ.nnz = smj.nbElem :=
      Nat.le_antisymm hle (Nat.not_lt.mp hg)
    simp only [hg, if_false, writeFront, List.length_append, List.length_drop]
    omega

/-- Helper: a synchronizer trace always starts with its initial handle. -/
theorem syncTrace_eq_cons (size : Nat) (lrv : Option (List Int))
    (J : SUNMatrixSparse) (ms : List SparseMatrix) :
    syncTrace size lrv J ms = J :: (syncTrace size lrv J ms).tail := by
  cases ms <;> rfl

/-- C7 (amended): starting from a backend handle whose allocated capacity
equals its reported nonzero count, across any call sequence whose nonzero
counts are nondecreasing from that reported count, the allocated capacity
never shrinks, and after every call the reported nonzero count equals that
call's input `nbElem()` (the latter holds by the unconditional update of
line 56; the capacity hypothesis is forced by the counterexample, since the
growth path reallocates down to exactly `newNnz`). -/
theorem growth_monotonic_capacity_and_nnz (size : Nat)
    (lrv : Option (List Int)) (JJ : SUNMatrixSparse) (ms : List SparseMatrix)
    (hfresh : JJ.indexvals.length = JJ.nnz)
    (hmono : List.Chain (· ≤ ·) JJ.nnz (ms.map SparseMatrix.nbElem)) :
    List.Chain' (· ≤ ·)
      ((syncTrace size lrv JJ ms).map (fun j => j.indexvals.length))
    ∧ (syncTrace size lrv JJ ms).tail.map SUNMatrixSparse.nnz
        = ms.map SparseMatrix.nbElem := by
  induction ms generalizing JJ with
  | nil => simp [syncTrace, List.scanl]
  | cons m rest ih =>
    rw [List.map_cons] at hmono
    cases hmono with
    | cons hle hchain =>
      obtain ⟨hcap, hnnz⟩ := syncStep_invariant size lrv JJ m hfresh hle
      have hfresh2 : (syncStep size lrv JJ m).indexvals.length
          = (syncStep size lrv JJ m).nnz := hcap.trans hnnz.symm
      have hchain2 : List.Chain (· ≤ ·) (syncStep size lrv JJ m).nnz
          (rest.map SparseMatrix.nbElem) := hnnz ▸ hchain
      obtain ⟨ihcap, ihnnz⟩ := ih (syncStep size lrv JJ m) hfresh2 hchain2
      have htr : syncTrace size lrv JJ (m :: rest)
          = JJ :: syncTrace size lrv (syncStep size lrv JJ m) rest := rfl
      constructor
      · rw [htr, List.map_cons,
          syncTrace_eq_cons size lrv (syncStep size lrv JJ m) rest,
          List.map_cons]
        refine List.Chain'.cons ?_ ?_
        · rw [hfresh, hcap]; exact hle
        · rw [syncTrace_eq_cons size lrv (syncStep size lrv JJ m) rest,
            List.map_cons] at ihcap
          exact ihcap
      · rw [htr, List.tail_cons, List.map_cons,
          syncTrace_eq_cons size lrv (syncStep size lrv JJ m) rest,
          List.map_cons, hnnz]
        exact congrArg (List.cons m.nbElem) ihnnz

/-- C7 witness: a two-call nondecreasing sequence from a fresh handle. -/
theorem growth_monotonic_capacity_and_nnz_witness :
    List.Chain' (· ≤ ·)
      ((syncTrace 1 none jjOne [smjOne, smjTwo]).map
        (fun j => j.indexvals.length))
    ∧ (syncTrace 1 none jjOne [smjOne, smjTwo]).tail.map SUNMatrixSparse.nnz
        = [smjOne, smjTwo].map SparseMatrix.nbElem :=
  growth_monotonic_capacity_and_nnz 1 none jjOne [smjOne, smjTwo] rfl
    (by norm_num [jjOne, smjOne, smjTwo, SparseMatrix.nbElem, List.chain_cons])

end DYN
